import Mathlib

/-!
Shallow embedding of the snooker rules engine of `src/rsketch.js`:
the per-shot pocket handler (`Events.on collisionStart`), the shot
resolution machine (`rcheckTurnState`), rack setup (`rsetupBalls`),
the out-of-bounds safety sweep in `draw`, the shot firing path
(`Cue.shoot`) and the replay control (`rplayVisualReplay`,
`rupdatePlaybackIndex`).  Physics simulation, rendering and DOM writes
are external collaborators; the embedding records the mutations the
script performs on its game-state globals.  `setTimeout`-deferred
effects (the turn-switch announcement, the cue-ball respawn and the
frame re-rack) are modelled as explicit steps applied in their
real-time order.
-/

/-- Ball colors; the script tags balls with these color strings. -/
inductive Color
  | white | red | yellow | green | brown | blue | pink | black
  deriving DecidableEq

/-- Rules mode: the JS global `rgameRulesMode` holds the string
STANDARD or BEGINNER. -/
inductive RulesMode
  | STANDARD | BEGINNER
  deriving DecidableEq

/-- Shot outcome: which feedback branch the resolution in
`rcheckTurnState` takes ("FOUL", "MISS" or "GOOD POT"). -/
inductive Outcome
  | FOUL | MISS | GOOD_POT
  deriving DecidableEq

/-- User-visible feedback messages emitted by the replay subsystem via
`rshowFeedback`. -/
inductive Feedback
  | noShotToReplay | replayingShot | replayFinished
  deriving DecidableEq

/-- A ball of the registry `rballs`: in JS an object holding a color tag
and a physics body with position and velocity.  `id` stands for the
body reference identity that `findIndex(b => b.body === ballBody)` and
`ballBody === rcueBall.body` compare. -/
structure Ball where
  id : Nat
  color : Color
  pos : ℚ × ℚ
  vel : ℚ × ℚ
  deriving DecidableEq

/-- The game-state globals of rsketch.js.  `score1`/`score2` are the two
entries of `rscores = {1: .., 2: ..}`; `rcueBall` is the reference held
by the global `rcueBall` variable (the id of the ball it points at, or
`none` after `rcueBall = null`); `nextId` supplies fresh body
identities for newly created balls. -/
structure GameState where
  score1 : Nat
  score2 : Nat
  rcurrentPlayer : Nat
  rballsPottedThisTurn : Nat
  rcurrentBreak : Nat
  rfoulCommitted : Bool
  rframesCompleted : Nat
  rtotalShots : Nat
  rgameRulesMode : RulesMode
  rcurrentMode : Nat
  risShooting : Bool
  risPlacingCueBall : Bool
  risRecording : Bool
  risReplaying : Bool
  rreplayFrameIndex : Nat
  rlastShotRecording : List (List (ℚ × ℚ × Color))
  rballs : List Ball
  rcueBall : Option Nat
  nextId : Nat
  deriving DecidableEq

/-- `const TABLE_WIDTH = 800`. -/
def TABLE_WIDTH : ℚ := 800

/-- `const TABLE_HEIGHT = 400`. -/
def TABLE_HEIGHT : ℚ := 400

/-- The fixed kitchen spot where the cue ball is created:
`new Ball(TABLE_WIDTH * 0.2, TABLE_HEIGHT / 2, 'white')`, that is
`(800 * 0.2, 400 / 2) = (160, 200)`. -/
def rkitchenPos : ℚ × ℚ := (160, 200)

/-- JS `rcurrentPlayer === 1 ? 2 : 1`. -/
def ropponent (p : Nat) : Nat := if p = 1 then 2 else 1

/-- JS read `rscores[p]` (players are 1 and 2). -/
def rgetScore (s : GameState) (p : Nat) : Nat :=
  if p = 1 then s.score1 else s.score2

/-- JS `rscores[p] += pts` (players are 1 and 2). -/
def raddScore (s : GameState) (p : Nat) (pts : Nat) : GameState :=
  { s with score1 := s.score1 + (if p = 1 then pts else 0),
           score2 := s.score2 + (if p = 1 then 0 else pts) }

/-- Point value of a potted object ball, from the if-chain in the
collision handler: `let points = 1; // Default Red` then yellow 2,
green 3, brown 4, blue 5, pink 6, black 7. -/
def rpointsFor (c : Color) : Nat :=
  if c = Color.yellow then 2
  else if c = Color.green then 3
  else if c = Color.brown then 4
  else if c = Color.blue then 5
  else if c = Color.pink then 6
  else if c = Color.black then 7
  else 1

/-- JS `rballs.splice(ballIndex, 1)` where `ballIndex` is the first
index whose body matches: remove the first ball with the given id. -/
def rremoveFirstById : List Ball → Nat → List Ball
  | [], _ => []
  | b :: rest, bid => if b.id = bid then rest else b :: rremoveFirstById rest bid

/-- The pocket branch of the `collisionStart` handler, for one ball
body entering a pocket sensor, given the ball object found at
`findIndex`.  The removal (`World.remove` and the splice) has already
run when the handler tests `ballBody === rcueBall.body`, so three
paths exist:

* `rcueBall` is null (the one-second cue-respawn window after a foul):
  the test itself throws a TypeError and the handler aborts — the net
  state effect is the removal alone, with no foul flag and no accrual
  (`rpotThrows` records the throw);
* the potted body is the cue ball: set `rfoulCommitted`, award 4
  points to the opponent in STANDARD mode only, clear the `rcueBall`
  reference (the deferred respawn is `rrespawnCueBall`);
* otherwise (object ball): bump `rballsPottedThisTurn` and credit the
  ball's point value to the shooter's score and to the break
  counter. -/
def rapplyPot (s : GameState) (bid : Nat) (pottedBall : Ball) : GameState :=
  match s.rcueBall with
  | none => { s with rballs := rremoveFirstById s.rballs bid }
  | some cueId =>
    if cueId = bid then
      if s.rgameRulesMode = RulesMode.STANDARD then
        raddScore { s with rballs := rremoveFirstById s.rballs bid,
                           rfoulCommitted := true,
                           rcueBall := none }
          (ropponent s.rcurrentPlayer) 4
      else { s with rballs := rremoveFirstById s.rballs bid,
                    rfoulCommitted := true,
                    rcueBall := none }
    else
      raddScore { s with rballs := rremoveFirstById s.rballs bid,
                         rballsPottedThisTurn := s.rballsPottedThisTurn + 1,
                         rcurrentBreak :=
                           s.rcurrentBreak + rpointsFor pottedBall.color }
        s.rcurrentPlayer (rpointsFor pottedBall.color)

/-- The `collisionStart` pocket handler for one contact:
`rballs.findIndex(b => b.body === ballBody)`; `-1` (not found) is a
no-op, otherwise the found ball is potted. -/
def rhandlePocket (s : GameState) (bid : Nat) : GameState :=
  match s.rballs.find? (fun b => decide (b.id = bid)) with
  | none => s
  | some pottedBall => rapplyPot s bid pottedBall

/-- Whether the pocket handler throws: the ball is found (so the
handler reaches the `ballBody === rcueBall.body` test) while the
`rcueBall` reference is null, so reading `rcueBall.body` raises a
TypeError that escapes the collision callback. -/
def rpotThrows (s : GameState) (bid : Nat) : Bool :=
  (s.rballs.find? (fun b => decide (b.id = bid))).isSome && s.rcueBall.isNone

/-- The deferred (1 s `setTimeout`) cue-ball respawn after a foul:
`risPlacingCueBall = false; rcueBall = new Ball(TABLE_WIDTH * 0.2,
TABLE_HEIGHT / 2, 'white'); rballs.push(rcueBall)`. -/
def rrespawnCueBall (s : GameState) : GameState :=
  { s with risPlacingCueBall := false,
           rballs := s.rballs ++ [⟨s.nextId, Color.white, rkitchenPos, (0, 0)⟩],
           rcueBall := some s.nextId,
           nextId := s.nextId + 1 }

/-- `Vector.magnitude(b.body.velocity) > 0.05`, stated on the square to
avoid the square root: `|v| > 0.05` iff `v.x² + v.y² > 0.0025`. -/
def risBallMoving (b : Ball) : Bool :=
  decide ((1 : ℚ)/400 < b.vel.1 * b.vel.1 + b.vel.2 * b.vel.2)

/-- The rest-detection loop of `rcheckTurnState`: some ball still moves. -/
def ranyBallMoving (s : GameState) : Bool :=
  s.rballs.any risBallMoving

/-- The safety guard `if (!rcueBall) isMoving = true` in
`rcheckTurnState`: the cue-ball reference is null. -/
def rcueMissingGuard (s : GameState) : Bool :=
  s.rcueBall.isNone

/-- The frame-completion condition in `rcheckTurnState`:
`rballs.length === 1 && rcueBall`. -/
def rframeCompleteCond (s : GameState) : Bool :=
  decide (s.rballs.length = 1) && s.rcueBall.isSome

/-- The outcome classification of the resolution branch:
`if (rballsPottedThisTurn === 0 || rfoulCommitted)` then FOUL when
`rfoulCommitted` else MISS, otherwise GOOD POT. -/
def rshotOutcome (s : GameState) : Outcome :=
  if (decide (s.rballsPottedThisTurn = 0) || s.rfoulCommitted) = true then
    if s.rfoulCommitted = true then Outcome.FOUL else Outcome.MISS
  else Outcome.GOOD_POT

/-- Result of one `rcheckTurnState` call: the updated state (with the
1 s-deferred turn switch already applied), the outcome when resolution
ran, and whether the 2 s-deferred frame re-rack was scheduled. -/
structure ResolveResult where
  state : GameState
  outcome : Option Outcome
  reRack : Bool
  deriving DecidableEq

/-- Body of `rcheckTurnState` once all balls are at rest: on
`rballsPottedThisTurn === 0 || rfoulCommitted` the (deferred) turn
switch sets `rcurrentPlayer` to the opponent and resets
`rcurrentBreak` to 0; the per-shot counters, the shooting flag and the
recording flag are then cleared unconditionally; finally the
frame-completion check bumps `rframesCompleted` and schedules the
re-rack. -/
def rresolveAtRest (s : GameState) : ResolveResult :=
  let outcome := rshotOutcome s
  let switched : Bool := decide (s.rballsPottedThisTurn = 0) || s.rfoulCommitted
  let s1 := if switched = true then
              { s with rcurrentPlayer := ropponent s.rcurrentPlayer,
                       rcurrentBreak := 0 }
            else s
  let s2 := { s1 with rballsPottedThisTurn := 0,
                      rfoulCommitted := false,
                      risShooting := false,
                      risRecording := false }
  let frameDone := rframeCompleteCond s
  let s3 := if frameDone = true then
              { s2 with rframesCompleted := s2.rframesCompleted + 1 }
            else s2
  ⟨s3, some outcome, frameDone⟩

/-- `rcheckTurnState()`: a no-op unless `risShooting` is set and every
ball is at rest with the cue-ball reference present
(`if (!rcueBall) isMoving = true`). -/
def rcheckTurnState (s : GameState) : ResolveResult :=
  if s.risShooting = false then ⟨s, none, false⟩
  else if (ranyBallMoving s || rcueMissingGuard s) = true then ⟨s, none, false⟩
  else rresolveAtRest s

/-- The triangle of reds of layout mode 1: 5 rows, row `i` holding
`i + 1` balls at `x = 600 + i * 21`, `y = 200 - i * 10 + j * 20`. -/
def rtriangleRedLayout : List (Color × ℚ × ℚ) :=
  (List.range 5).flatMap (fun i =>
    (List.range (i + 1)).map (fun j =>
      (Color.red, 600 + (i : ℚ) * 21, 200 - (i : ℚ) * 10 + (j : ℚ) * 20)))

/-- Layout mode 1 (TRIANGLE): the 15 reds plus the six colored balls at
their fixed spots — black at `W*0.9 = 720`, pink at
`W*0.75 - BALL_RADIUS*4 = 560`, blue at `W*0.5 = 400`, and green,
brown, yellow on the baulk line `x = W*0.2 = 160` at `H/2 - 40`, `H/2`
and `H/2 + 40`. -/
def rtriangleLayout : List (Color × ℚ × ℚ) :=
  rtriangleRedLayout ++
    [(Color.black, 720, 200),
     (Color.pink, 560, 200),
     (Color.blue, 400, 200),
     (Color.green, 160, 160),
     (Color.brown, 160, 200),
     (Color.yellow, 160, 240)]

/-- Layout mode 2 (RANDOM): 10 reds plus a blue and a black at
positions drawn from the random source (`random(..)` calls, supplied
here as an oracle). -/
def rrandomLayout (rand : Nat → ℚ × ℚ) : List (Color × ℚ × ℚ) :=
  ((List.range 10).map (fun i => (Color.red, (rand i).1, (rand i).2))) ++
    [(Color.blue, (rand 10).1, (rand 10).2),
     (Color.black, (rand 11).1, (rand 11).2)]

/-- Layout mode 3 (PRACTICE): 5 reds at random positions. -/
def rpracticeLayout (rand : Nat → ℚ × ℚ) : List (Color × ℚ × ℚ) :=
  (List.range 5).map (fun i => (Color.red, (rand i).1, (rand i).2))

/-- Object-ball layout for a mode (any other mode value leaves only the
cue ball, as in the JS if-chain). -/
def rlayoutFor (rand : Nat → ℚ × ℚ) (mode : Nat) : List (Color × ℚ × ℚ) :=
  if mode = 1 then rtriangleLayout
  else if mode = 2 then rrandomLayout rand
  else if mode = 3 then rpracticeLayout rand
  else []

/-- Create the listed balls with consecutive fresh body identities
(each `new Ball(..)` starts at velocity 0). -/
def rmkBalls : Nat → List (Color × ℚ × ℚ) → List Ball
  | _, [] => []
  | n, (c, x, y) :: rest => ⟨n, c, (x, y), (0, 0)⟩ :: rmkBalls (n + 1) rest

/-- `rsetupBalls(mode)`: clears the registry, zeroes both scores, makes
player 1 active, clears the per-shot counters, the break, the shooting
flag and the shot total, recreates the cue ball at the kitchen spot
(`risPlacingCueBall = false`), then builds the mode's object balls.
`rframesCompleted`, the rules mode, the layout mode and the replay
state are untouched. -/
def rsetupBalls (rand : Nat → ℚ × ℚ) (mode : Nat) (s : GameState) : GameState :=
  let cueId := s.nextId
  let objs := rmkBalls (cueId + 1) (rlayoutFor rand mode)
  { s with rballs := Ball.mk cueId Color.white rkitchenPos (0, 0) :: objs,
           score1 := 0,
           score2 := 0,
           rcurrentPlayer := 1,
           rballsPottedThisTurn := 0,
           rcurrentBreak := 0,
           rfoulCommitted := false,
           risShooting := false,
           rtotalShots := 0,
           rcueBall := some cueId,
           risPlacingCueBall := false,
           nextId := cueId + 1 + (rlayoutFor rand mode).length }

/-- One `rcheckTurnState` call together with its 2 s-deferred frame
re-rack (`setTimeout(() => rsetupBalls(rcurrentMode), 2000)`). -/
def rfullResolve (rand : Nat → ℚ × ℚ) (s : GameState) : GameState :=
  if (rcheckTurnState s).reRack = true then
    rsetupBalls rand (rcheckTurnState s).state.rcurrentMode (rcheckTurnState s).state
  else (rcheckTurnState s).state

/-- The out-of-bounds test of the per-tick safety sweep in `draw`:
`dist(pos, tableCenter) > 700 || pos.y > 1000`, the distance stated on
squares (center is `(400, 200)`, `700² = 490000`). -/
def routOfBounds (b : Ball) : Bool :=
  decide ((490000 : ℚ) <
      (b.pos.1 - 400) * (b.pos.1 - 400) + (b.pos.2 - 200) * (b.pos.2 - 200)) ||
    decide ((1000 : ℚ) < b.pos.2)

/-- The per-tick safety sweep in `draw`: every out-of-bounds ball is
removed from the physics world and spliced out of `rballs`; nothing
else is touched. -/
def routOfBoundsSweep (s : GameState) : GameState :=
  { s with rballs := s.rballs.filter (fun b => !(routOfBounds b)) }

/-- The state mutations of `Cue.shoot()` when a shot fires: restart the
recording buffer, set the recording and shooting flags, count the
shot.  (The impulse on the cue ball is applied by the physics
collaborator.) -/
def rfireShot (s : GameState) : GameState :=
  { s with rlastShotRecording := [],
           risRecording := true,
           risShooting := true,
           rtotalShots := s.rtotalShots + 1 }

/-- `rrecordFrame()`: append a sample of every live ball's position and
color to the recording buffer. -/
def rrecordFrame (s : GameState) : GameState :=
  { s with rlastShotRecording :=
      s.rlastShotRecording ++ [s.rballs.map (fun b => (b.pos.1, b.pos.2, b.color))] }

/-- `rplayVisualReplay()`: reject with feedback when no recording
exists; reject silently while shooting or already replaying; otherwise
enter replay mode at frame index 0 with feedback. -/
def rplayVisualReplay (s : GameState) : GameState × Option Feedback :=
  if s.rlastShotRecording.length = 0 then (s, some Feedback.noShotToReplay)
  else if (s.risShooting || s.risReplaying) = true then (s, none)
  else ({ s with risReplaying := true, rreplayFrameIndex := 0 },
        some Feedback.replayingShot)

/-- `rupdatePlaybackIndex()`, called once per render tick while
replaying: past the last recorded frame the replay exits with
feedback, otherwise the frame index advances by one. -/
def rupdatePlaybackIndex (s : GameState) : GameState × Option Feedback :=
  if s.rlastShotRecording.length ≤ s.rreplayFrameIndex then
    ({ s with risReplaying := false }, some Feedback.replayFinished)
  else
    ({ s with rreplayFrameIndex := s.rreplayFrameIndex + 1 }, none)

/-- The state-mutating operations of the script, as one step alphabet
(used to quantify over "any operation"). -/
inductive Op where
  | pot (bid : Nat)
  | respawnCue
  | resolve (rand : Nat → ℚ × ℚ)
  | sweep
  | setup (rand : Nat → ℚ × ℚ) (mode : Nat)
  | fire
  | replayRequest
  | replayTick
  | record

/-- Apply one operation.  `setup` models a `keyPressed` rack change:
`rcurrentMode = mode; rsetupBalls(mode)`. -/
def rstep : Op → GameState → GameState
  | Op.pot bid, s => rhandlePocket s bid
  | Op.respawnCue, s => rrespawnCueBall s
  | Op.resolve rand, s => rfullResolve rand s
  | Op.sweep, s => routOfBoundsSweep s
  | Op.setup rand mode, s => rsetupBalls rand mode { s with rcurrentMode := mode }
  | Op.fire, s => rfireShot s
  | Op.replayRequest, s => (rplayVisualReplay s).1
  | Op.replayTick, s => (rupdatePlaybackIndex s).1
  | Op.record, s => rrecordFrame s

/-- Whether the operation performs the full rack reset (a direct
`rsetupBalls` call, or a resolution that scheduled the frame
re-rack). -/
def rperformsRackReset : Op → GameState → Bool
  | Op.setup _ _, _ => true
  | Op.resolve _, s => (rcheckTurnState s).reRack
  | _, _ => false

/-- A quiescent reference state used by the concrete scenarios below:
fresh match, STANDARD rules, TRIANGLE mode, empty table. -/
def rbaseState : GameState :=
  { score1 := 0, score2 := 0, rcurrentPlayer := 1, rballsPottedThisTurn := 0,
    rcurrentBreak := 0, rfoulCommitted := false, rframesCompleted := 0,
    rtotalShots := 0, rgameRulesMode := RulesMode.STANDARD, rcurrentMode := 1,
    risShooting := false, risPlacingCueBall := false, risRecording := false,
    risReplaying := false, rreplayFrameIndex := 0, rlastShotRecording := [],
    rballs := [], rcueBall := none, nextId := 0 }

/-- A degenerate random source for concrete runs of the random layouts. -/
def rzeroRand : Nat → ℚ × ℚ := fun _ => (0, 0)

/-- A cue ball at rest at the kitchen spot, body identity 0. -/
def rcueAtRest : Ball := ⟨0, Color.white, rkitchenPos, (0, 0)⟩

/-- A red object ball at rest, body identity 1. -/
def rredAtRest : Ball := ⟨1, Color.red, (600, 200), (0, 0)⟩

/-- A second red object ball at rest, body identity 2. -/
def rredAtRest2 : Ball := ⟨2, Color.red, (621, 190), (0, 0)⟩

/-- A yellow object ball at rest, body identity 3. -/
def ryellowAtRest : Ball := ⟨3, Color.yellow, (160, 240), (0, 0)⟩

/-- A red object ball still rolling, body identity 1. -/
def rredRolling : Ball := ⟨1, Color.red, (300, 200), (5, 0)⟩

/-- Concrete respawn-window state: the cue ball has been potted
(`rcueBall` is null, the deferred respawn has not fired yet), a red is
still rolling toward a pocket, and the shot's counters, break and
scores hold nonzero values. -/
def rc3CrashState : GameState :=
  { rbaseState with score1 := 7, score2 := 5, rballsPottedThisTurn := 2,
                    rcurrentBreak := 3, rfoulCommitted := true,
                    risShooting := true, rballs := [rredRolling],
                    rcueBall := none, nextId := 4 }

/-- Mid-shot state for the C8 scenario with symbolic scores: player 1
shooting in STANDARD mode, cue ball plus two reds on the table. -/
def rc8State (a b : Nat) : GameState :=
  { rbaseState with score1 := a, score2 := b,
                    rballs := [rcueAtRest, rredAtRest, rredAtRest2],
                    rcueBall := some 0, risShooting := true, nextId := 3 }

/-- Concrete mid-shot state: cue ball plus one red and one yellow. -/
def rcShotState : GameState :=
  { rbaseState with rballs := [rcueAtRest, rredAtRest, ryellowAtRest],
                    rcueBall := some 0, risShooting := true, nextId := 4 }

/-- Concrete end-of-frame state: only the cue ball left, at rest,
mid-shot, with nonzero scores and a frame already completed. -/
def rc6State : GameState :=
  { rbaseState with rballs := [rcueAtRest], rcueBall := some 0,
                    risShooting := true, nextId := 1,
                    score1 := 30, score2 := 20, rframesCompleted := 3 }

/-- Concrete state with a positive break for the C5 counterexample. -/
def rc5State : GameState := { rbaseState with rcurrentBreak := 5 }

/-- A cue ball far out of bounds (beyond the 700-radius sweep circle). -/
def rc10Cue : Ball := ⟨0, Color.white, (2000, 0), (0, 0)⟩

/-- Concrete state whose cue ball is out of bounds. -/
def rc10State : GameState :=
  { rbaseState with rballs := [rc10Cue], rcueBall := some 0 }

/-- Concrete state with a one-frame recording while a shot is in
flight (the busy replay-rejection case). -/
def rc9State : GameState :=
  { rbaseState with rlastShotRecording := [[]], risShooting := true }

/-- The C8 scenario after both pots: player 1 pockets the red (body 1)
and then the cue ball (body 0) in the same shot. -/
def rc8AfterPots (a b : Nat) : GameState :=
  rhandlePocket (rhandlePocket (rc8State a b) 1) 0

/-- The C8 scenario resolved: cue ball respawns, then the shot
resolution runs with every remaining ball at rest. -/
def rc8Resolved (a b : Nat) : ResolveResult :=
  rcheckTurnState (rrespawnCueBall (rc8AfterPots a b))

/-! ## Helper lemmas -/

theorem ropponent_ne (p : Nat) : ropponent p ≠ p := by
  unfold ropponent; split <;> omega

theorem rgetScore_raddScore_self (s : GameState) (p k : Nat) :
    rgetScore (raddScore s p k) p = rgetScore s p + k := by
  unfold rgetScore raddScore
  by_cases h : p = 1 <;> simp [h]

theorem rgetScore_raddScore_ropponent (s : GameState) (p k : Nat) :
    rgetScore (raddScore s (ropponent p) k) p = rgetScore s p := by
  unfold rgetScore raddScore ropponent
  by_cases h : p = 1 <;> simp [h]

theorem risBallMoving_mk_zero (i : Nat) (c : Color) (p : ℚ × ℚ) :
    risBallMoving ⟨i, c, p, (0, 0)⟩ = false := by
  simp [risBallMoving]

theorem risBallMoving_zero_vel (b : Ball) (h : b.vel = 0) :
    risBallMoving b = false := by
  simp [risBallMoving, h]

theorem rremoveFirstById_any_eq_false (bs : List Ball) (bid : Nat) (f : Ball → Bool)
    (h : bs.any f = false) : (rremoveFirstById bs bid).any f = false := by
  induction bs with
  | nil => simp [rremoveFirstById]
  | cons b rest ih =>
    simp only [List.any_cons, Bool.or_eq_false_iff] at h
    unfold rremoveFirstById
    by_cases hb : b.id = bid
    · simpa [hb] using h.2
    · simp [hb, List.any_cons, h.1, ih h.2]

theorem rremoveFirstById_length (bs : List Ball) (bid : Nat) (b : Ball)
    (h : bs.find? (fun x => decide (x.id = bid)) = some b) :
    (rremoveFirstById bs bid).length + 1 = bs.length := by
  induction bs with
  | nil => simp at h
  | cons hd tl ih =>
    by_cases hb : hd.id = bid
    · simp [rremoveFirstById, hb]
    · rw [List.find?_cons_of_neg _ (by simpa using hb)] at h
      simp [rremoveFirstById, hb, ih h]

theorem rmkBalls_length (l : List (Color × ℚ × ℚ)) :
    ∀ n, (rmkBalls n l).length = l.length := by
  induction l with
  | nil => intro n; rfl
  | cons e rest ih =>
    intro n
    obtain ⟨ec, ex, ey⟩ := e
    simp [rmkBalls, ih]

theorem rmkBalls_countP_color (c : Color) (l : List (Color × ℚ × ℚ)) :
    ∀ n, (rmkBalls n l).countP (fun b => decide (b.color = c)) =
      l.countP (fun e => decide (e.1 = c)) := by
  induction l with
  | nil => intro n; rfl
  | cons e rest ih =>
    intro n
    obtain ⟨ec, ex, ey⟩ := e
    simp [rmkBalls, List.countP_cons, ih]

theorem rmkBalls_filterColor_map_pos (c : Color) (l : List (Color × ℚ × ℚ)) :
    ∀ n, ((rmkBalls n l).filter (fun b => decide (b.color = c))).map Ball.pos =
      (l.filter (fun e => decide (e.1 = c))).map Prod.snd := by
  induction l with
  | nil => intro n; rfl
  | cons e rest ih =>
    intro n
    obtain ⟨ec, ex, ey⟩ := e
    by_cases hc : ec = c <;> simp [rmkBalls, List.filter_cons, hc, ih]

theorem rcheckTurnState_resolves (s : GameState) (hsh : s.risShooting = true)
    (hmv : ranyBallMoving s = false) (hcue : rcueMissingGuard s = false) :
    rcheckTurnState s = rresolveAtRest s := by
  simp [rcheckTurnState, hsh, hmv, hcue]

theorem rcheckTurnState_noop_of_not_shooting (s : GameState)
    (hsh : s.risShooting = false) :
    rcheckTurnState s = ⟨s, none, false⟩ := by
  simp [rcheckTurnState, hsh]

theorem rresolveAtRest_spec (s : GameState) :
    (rresolveAtRest s).outcome = some (rshotOutcome s) ∧
    (rresolveAtRest s).reRack = rframeCompleteCond s ∧
    (rresolveAtRest s).state.rcurrentPlayer =
      (if (decide (s.rballsPottedThisTurn = 0) || s.rfoulCommitted) = true
       then ropponent s.rcurrentPlayer else s.rcurrentPlayer) ∧
    (rresolveAtRest s).state.rcurrentBreak =
      (if (decide (s.rballsPottedThisTurn = 0) || s.rfoulCommitted) = true
       then 0 else s.rcurrentBreak) ∧
    (rresolveAtRest s).state.rballsPottedThisTurn = 0 ∧
    (rresolveAtRest s).state.rfoulCommitted = false ∧
    (rresolveAtRest s).state.risShooting = false ∧
    (rresolveAtRest s).state.rframesCompleted =
      (if rframeCompleteCond s = true
       then s.rframesCompleted + 1 else s.rframesCompleted) ∧
    (rresolveAtRest s).state.rcurrentMode = s.rcurrentMode ∧
    (rresolveAtRest s).state.nextId = s.nextId ∧
    (rresolveAtRest s).state.rballs = s.rballs ∧
    (rresolveAtRest s).state.rcueBall = s.rcueBall ∧
    (rresolveAtRest s).state.score1 = s.score1 ∧
    (rresolveAtRest s).state.score2 = s.score2 := by
  unfold rresolveAtRest
  by_cases h1 : (decide (s.rballsPottedThisTurn = 0) || s.rfoulCommitted) = true <;>
    by_cases h2 : rframeCompleteCond s = true <;>
      simp [h1, h2]

/-! ## Claim theorems -/

/-- C1: at shot resolution (shooting flag set, every ball at rest, cue
ball present), a committed foul yields outcome FOUL regardless of the
pot count; otherwise zero pots yield MISS and a positive pot count
yields GOOD POT.  On FOUL or MISS the active player switches to the
opponent; on GOOD POT the active player retains the turn. -/
theorem c1_shot_resolution_outcome (s : GameState) (cid : Nat)
    (hsh : s.risShooting = true)
    (hmv : ranyBallMoving s = false)
    (hcue : s.rcueBall = some cid) :
    (rcheckTurnState s).outcome = some (rshotOutcome s) ∧
    (s.rfoulCommitted = true → rshotOutcome s = Outcome.FOUL) ∧
    (s.rfoulCommitted = false → s.rballsPottedThisTurn = 0 →
      rshotOutcome s = Outcome.MISS) ∧
    (s.rfoulCommitted = false → s.rballsPottedThisTurn ≠ 0 →
      rshotOutcome s = Outcome.GOOD_POT) ∧
    ((s.rfoulCommitted = true ∨ s.rballsPottedThisTurn = 0) →
      (rcheckTurnState s).state.rcurrentPlayer = ropponent s.rcurrentPlayer ∧
      (rcheckTurnState s).state.rcurrentPlayer ≠ s.rcurrentPlayer) ∧
    (s.rfoulCommitted = false → s.rballsPottedThisTurn ≠ 0 →
      (rcheckTurnState s).state.rcurrentPlayer = s.rcurrentPlayer) := by
  have hres := rcheckTurnState_resolves s hsh hmv (by simp [rcueMissingGuard, hcue])
  obtain ⟨ho, -, hpl, -⟩ := rresolveAtRest_spec s
  refine ⟨by rw [hres]; exact ho, ?_, ?_, ?_, ?_, ?_⟩
  · intro hf; simp [rshotOutcome, hf]
  · intro hf hp0; simp [rshotOutcome, hf, hp0]
  · intro hf hp0; simp [rshotOutcome, hf, hp0]
  · intro h
    have hcond : (decide (s.rballsPottedThisTurn = 0) || s.rfoulCommitted) = true := by
      rcases h with h | h <;> simp [h]
    rw [hres, hpl, if_pos hcond]
    exact ⟨rfl, ropponent_ne _⟩
  · intro hf hp0
    rw [hres, hpl, if_neg (by simp [hf, hp0])]

/-- C1 witness: a concrete resolving state (shot in flight, cue ball
plus two object balls all at rest, no pot, no foul) resolves to MISS
and switches the active player from 1 to 2. -/
theorem c1_shot_resolution_outcome_witness :
    (rcheckTurnState rcShotState).outcome = some (rshotOutcome rcShotState) ∧
    rshotOutcome rcShotState = Outcome.MISS ∧
    (rcheckTurnState rcShotState).state.rcurrentPlayer = 2 := by
  obtain ⟨h1, -, h3, -, h5, -⟩ :=
    c1_shot_resolution_outcome rcShotState 0 rfl
      (by simp [ranyBallMoving, rcShotState, rcueAtRest, rredAtRest,
        ryellowAtRest, risBallMoving_zero_vel]) rfl
  refine ⟨h1, h3 rfl rfl, ?_⟩
  have := (h5 (Or.inr rfl)).1
  simpa [ropponent] using this

/-- C4: shot resolution runs at most once per shot: a second
`rcheckTurnState` call on the post-resolution state is a no-op (the
shooting flag that gates it is cleared by resolution and set again
only by `Cue.shoot`), so it neither switches the player again nor
touches the scores; after any resolution the per-shot counters
`rballsPottedThisTurn` and `rfoulCommitted` are cleared
unconditionally. -/
theorem c4_resolution_idempotent (s : GameState) :
    rcheckTurnState (rcheckTurnState s).state
      = ⟨(rcheckTurnState s).state, none, false⟩ ∧
    ((rcheckTurnState s).outcome.isSome = true →
      (rcheckTurnState s).state.rballsPottedThisTurn = 0 ∧
      (rcheckTurnState s).state.rfoulCommitted = false ∧
      (rcheckTurnState s).state.risShooting = false) ∧
    (rfireShot s).risShooting = true := by
  by_cases hsh : s.risShooting = false
  · rw [rcheckTurnState_noop_of_not_shooting s hsh]
    exact ⟨rcheckTurnState_noop_of_not_shooting s hsh, by simp, rfl⟩
  · by_cases hg : (ranyBallMoving s || rcueMissingGuard s) = true
    · have h0 : rcheckTurnState s = ⟨s, none, false⟩ := by
        simp [rcheckTurnState, hsh, hg]
      rw [h0]
      exact ⟨h0, by simp, rfl⟩
    · have h1 : rcheckTurnState s = rresolveAtRest s := by
        simp [rcheckTurnState, hsh, hg]
      obtain ⟨-, -, -, -, hpt, hfl, hshh, -⟩ := rresolveAtRest_spec s
      rw [h1]
      exact ⟨rcheckTurnState_noop_of_not_shooting _ hshh,
        fun _ => ⟨hpt, hfl, hshh⟩, rfl⟩

/-- C4 witness: on a concrete resolving state the resolution runs
(outcome present), the counters come out cleared, and re-running the
check is the identity. -/
theorem c4_resolution_idempotent_witness :
    rcheckTurnState (rcheckTurnState rcShotState).state
      = ⟨(rcheckTurnState rcShotState).state, none, false⟩ ∧
    (rcheckTurnState rcShotState).state.rballsPottedThisTurn = 0 ∧
    (rcheckTurnState rcShotState).state.rfoulCommitted = false := by
  obtain ⟨h1, h2, -⟩ := c4_resolution_idempotent rcShotState
  have hmv : ranyBallMoving rcShotState = false := by
    simp [ranyBallMoving, rcShotState, rcueAtRest, rredAtRest,
      ryellowAtRest, risBallMoving_zero_vel]
  have hres := rcheckTurnState_resolves rcShotState rfl hmv rfl
  have hsome : (rcheckTurnState rcShotState).outcome.isSome = true := by
    rw [hres, (rresolveAtRest_spec rcShotState).1]
    rfl
  obtain ⟨hp, hf, -⟩ := h2 hsome
  exact ⟨h1, hp, hf⟩

theorem rhandlePocket_eq_applyPot (s : GameState) (bid : Nat) (b : Ball)
    (hfind : s.rballs.find? (fun x => decide (x.id = bid)) = some b) :
    rhandlePocket s bid = rapplyPot s bid b := by
  unfold rhandlePocket
  rw [hfind]

theorem rapplyPot_cue_spec (s : GameState) (bid : Nat) (b : Ball)
    (hcue : s.rcueBall = some bid) :
    (rapplyPot s bid b).rfoulCommitted = true ∧
    (rapplyPot s bid b).rcueBall = none ∧
    (rapplyPot s bid b).rballs = rremoveFirstById s.rballs bid ∧
    (rapplyPot s bid b).rcurrentPlayer = s.rcurrentPlayer ∧
    (rapplyPot s bid b).risShooting = s.risShooting ∧
    (rapplyPot s bid b).rgameRulesMode = s.rgameRulesMode ∧
    (rapplyPot s bid b).rballsPottedThisTurn = s.rballsPottedThisTurn ∧
    (rapplyPot s bid b).rcurrentBreak = s.rcurrentBreak ∧
    (rapplyPot s bid b).nextId = s.nextId ∧
    (s.rgameRulesMode = RulesMode.STANDARD →
      rgetScore (rapplyPot s bid b) (ropponent s.rcurrentPlayer)
        = rgetScore s (ropponent s.rcurrentPlayer) + 4 ∧
      rgetScore (rapplyPot s bid b) s.rcurrentPlayer
        = rgetScore s s.rcurrentPlayer) ∧
    (s.rgameRulesMode ≠ RulesMode.STANDARD →
      (rapplyPot s bid b).score1 = s.score1 ∧
      (rapplyPot s bid b).score2 = s.score2) := by
  unfold rapplyPot
  simp only [hcue]
  rw [if_pos trivial]
  by_cases hm : s.rgameRulesMode = RulesMode.STANDARD
  · rw [if_pos hm]
    exact ⟨rfl, rfl, rfl, rfl, rfl, rfl, rfl, rfl, rfl,
      fun _ => ⟨rgetScore_raddScore_self _ _ _, rgetScore_raddScore_ropponent _ _ _⟩,
      fun h => absurd hm h⟩
  · rw [if_neg hm]
    exact ⟨rfl, rfl, rfl, rfl, rfl, rfl, rfl, rfl, rfl,
      fun h => absurd h hm, fun _ => ⟨rfl, rfl⟩⟩

/-- C2: when the cue ball is potted, the foul flag is set; in STANDARD
mode the opponent of the current player gains exactly 4 points and the
shooter's score is unchanged, in BEGINNER mode neither score changes;
and once the cue ball respawns and the shot resolves at rest, the
outcome is FOUL and the active player switches in either mode. -/
theorem c2_cue_ball_pot (s : GameState) (cid : Nat) (cueB : Ball)
    (hcue : s.rcueBall = some cid)
    (hfind : s.rballs.find? (fun x => decide (x.id = cid)) = some cueB)
    (hsh : s.risShooting = true)
    (hmv : ranyBallMoving s = false) :
    (rhandlePocket s cid).rfoulCommitted = true ∧
    (s.rgameRulesMode = RulesMode.STANDARD →
      rgetScore (rhandlePocket s cid) (ropponent s.rcurrentPlayer)
        = rgetScore s (ropponent s.rcurrentPlayer) + 4 ∧
      rgetScore (rhandlePocket s cid) s.rcurrentPlayer
        = rgetScore s s.rcurrentPlayer) ∧
    (s.rgameRulesMode = RulesMode.BEGINNER →
      (rhandlePocket s cid).score1 = s.score1 ∧
      (rhandlePocket s cid).score2 = s.score2) ∧
    (rcheckTurnState (rrespawnCueBall (rhandlePocket s cid))).outcome
      = some Outcome.FOUL ∧
    (rcheckTurnState (rrespawnCueBall (rhandlePocket s cid))).state.rcurrentPlayer
      = ropponent s.rcurrentPlayer ∧
    (rcheckTurnState (rrespawnCueBall (rhandlePocket s cid))).state.rcurrentPlayer
      ≠ s.rcurrentPlayer := by
  rw [rhandlePocket_eq_applyPot s cid cueB hfind]
  obtain ⟨hfl, -, hbl, hpl, hshp, -, -, -, -, hstd, hbeg⟩ :=
    rapplyPot_cue_spec s cid cueB hcue
  have hsh2 : (rrespawnCueBall (rapplyPot s cid cueB)).risShooting = true := by
    rw [show (rrespawnCueBall (rapplyPot s cid cueB)).risShooting
        = (rapplyPot s cid cueB).risShooting from rfl, hshp, hsh]
  have hguard2 : rcueMissingGuard (rrespawnCueBall (rapplyPot s cid cueB)) = false := by
    simp [rcueMissingGuard, rrespawnCueBall]
  have hmv2 : ranyBallMoving (rrespawnCueBall (rapplyPot s cid cueB)) = false := by
    show ((rapplyPot s cid cueB).rballs ++ [_]).any risBallMoving = false
    rw [List.any_append, hbl]
    simp [rremoveFirstById_any_eq_false s.rballs cid risBallMoving hmv,
      risBallMoving_zero_vel]
  have hfl2 : (rrespawnCueBall (rapplyPot s cid cueB)).rfoulCommitted = true := hfl
  have hres := rcheckTurnState_resolves _ hsh2 hmv2 hguard2
  obtain ⟨ho2, -, hpl2, -⟩ := rresolveAtRest_spec (rrespawnCueBall (rapplyPot s cid cueB))
  have hpl3 : (rrespawnCueBall (rapplyPot s cid cueB)).rcurrentPlayer
      = s.rcurrentPlayer := hpl
  refine ⟨hfl, hstd, fun h => hbeg (by rw [h]; intro hc; cases hc), ?_, ?_, ?_⟩
  · rw [hres, ho2]
    simp [rshotOutcome, hfl2]
  · rw [hres, hpl2, if_pos (by simp [hfl2]), hpl3]
  · rw [hres, hpl2, if_pos (by simp [hfl2]), hpl3]
    exact ropponent_ne _

/-- C2 witness: on a concrete STANDARD-mode state (player 1 shooting,
all balls at rest) potting the cue ball sets the foul flag, gives
player 2 exactly 4 points, and after respawn the resolution reports
FOUL and hands the turn to player 2. -/
theorem c2_cue_ball_pot_witness :
    (rhandlePocket rcShotState 0).rfoulCommitted = true ∧
    rgetScore (rhandlePocket rcShotState 0) 2 = 4 ∧
    (rcheckTurnState (rrespawnCueBall (rhandlePocket rcShotState 0))).outcome
      = some Outcome.FOUL ∧
    (rcheckTurnState (rrespawnCueBall (rhandlePocket rcShotState 0))).state.rcurrentPlayer
      = 2 := by
  obtain ⟨h1, h2, -, h4, h5, -⟩ :=
    c2_cue_ball_pot rcShotState 0 rcueAtRest rfl rfl rfl
      (by simp [ranyBallMoving, rcShotState, rcueAtRest, rredAtRest,
        ryellowAtRest, risBallMoving_zero_vel])
  exact ⟨h1, (h2 rfl).1, h4, h5⟩

theorem rapplyPot_null_spec (s : GameState) (bid : Nat) (b : Ball)
    (hcue : s.rcueBall = none) :
    rapplyPot s bid b = { s with rballs := rremoveFirstById s.rballs bid } := by
  unfold rapplyPot
  simp only [hcue]

theorem rapplyPot_object_spec (s : GameState) (bid : Nat) (b : Ball) (c : Nat)
    (hcue : s.rcueBall = some c) (hne : ¬ c = bid) :
    (rapplyPot s bid b).rballsPottedThisTurn = s.rballsPottedThisTurn + 1 ∧
    rgetScore (rapplyPot s bid b) s.rcurrentPlayer
      = rgetScore s s.rcurrentPlayer + rpointsFor b.color ∧
    (rapplyPot s bid b).rcurrentBreak = s.rcurrentBreak + rpointsFor b.color ∧
    (rapplyPot s bid b).rballs = rremoveFirstById s.rballs bid ∧
    (rapplyPot s bid b).rcurrentPlayer = s.rcurrentPlayer := by
  unfold rapplyPot
  simp only [hcue]
  rw [if_neg hne]
  exact ⟨rfl, rgetScore_raddScore_self _ _ _, rfl, rfl, rfl⟩

/-- C3 (code bug): during the one-second cue-respawn window after a
foul, the `rcueBall` reference is null while object balls are still
rolling; if one then enters a pocket, the handler removes it from the
registry but throws a TypeError at the `ballBody === rcueBall.body`
test, so none of the claimed accrual happens — the pot counter, both
scores, the break and the foul flag are left exactly as they were.
Evaluated at a concrete respawn-window state with a red potted.
(Outside that window the accrual is as claimed: see
`rapplyPot_object_spec`.) -/
theorem c3_respawn_window_pot_crash :
    rpotThrows rc3CrashState 1 = true ∧
    (rhandlePocket rc3CrashState 1).rballs = [] ∧
    (rhandlePocket rc3CrashState 1).rballsPottedThisTurn
      = rc3CrashState.rballsPottedThisTurn ∧
    (rhandlePocket rc3CrashState 1).score1 = rc3CrashState.score1 ∧
    (rhandlePocket rc3CrashState 1).score2 = rc3CrashState.score2 ∧
    (rhandlePocket rc3CrashState 1).rcurrentBreak
      = rc3CrashState.rcurrentBreak ∧
    (rhandlePocket rc3CrashState 1).rfoulCommitted
      = rc3CrashState.rfoulCommitted ∧
    (rhandlePocket rc3CrashState 1).rcueBall = none := by
  exact ⟨rfl, rfl, rfl, rfl, rfl, rfl, rfl, rfl⟩

/-- C8: scenario — player 1, STANDARD mode, pockets one red (value 1)
and the cue ball in the same shot.  After the two pot events the pot
counter is 1 and the foul flag is set; at resolution the outcome is
FOUL, player 2's score has grown by exactly 4, the break stands at 0
(the red's value does not survive into the break), and the active
player is player 2. -/
theorem c8_red_and_cue_scenario (a b : Nat) :
    (rc8AfterPots a b).rballsPottedThisTurn = 1 ∧
    (rc8AfterPots a b).rfoulCommitted = true ∧
    (rc8Resolved a b).outcome = some Outcome.FOUL ∧
    rgetScore (rc8Resolved a b).state 2 = b + 4 ∧
    (rc8Resolved a b).state.rcurrentBreak = 0 ∧
    (rc8Resolved a b).state.rcurrentPlayer = 2 := by
  simp only [rc8AfterPots, rc8Resolved, rc8State, rbaseState, rcueAtRest,
    rredAtRest, rredAtRest2]
  norm_num [rhandlePocket, rapplyPot, rremoveFirstById, raddScore, ropponent,
    rgetScore, rpointsFor, rrespawnCueBall, rcheckTurnState, ranyBallMoving,
    rcueMissingGuard, risBallMoving_zero_vel, rresolveAtRest, rshotOutcome,
    rframeCompleteCond, List.find?]


theorem rpointsFor_pos (c : Color) : 1 ≤ rpointsFor c := by
  cases c <;> decide

theorem rhandlePocket_eq_self (s : GameState) (bid : Nat)
    (hf : s.rballs.find? (fun x => decide (x.id = bid)) = none) :
    rhandlePocket s bid = s := by
  unfold rhandlePocket
  rw [hf]

theorem rfullResolve_cases (rand : Nat → ℚ × ℚ) (s : GameState) :
    (rcheckTurnState s = ⟨s, none, false⟩ ∧ rfullResolve rand s = s) ∨
    (rcheckTurnState s = rresolveAtRest s ∧
      ((rframeCompleteCond s = true ∧
         rfullResolve rand s
           = rsetupBalls rand (rresolveAtRest s).state.rcurrentMode
               (rresolveAtRest s).state) ∨
       (rframeCompleteCond s = false ∧
         rfullResolve rand s = (rresolveAtRest s).state))) := by
  by_cases hsh : s.risShooting = false
  · have h0 := rcheckTurnState_noop_of_not_shooting s hsh
    refine Or.inl ⟨h0, ?_⟩
    unfold rfullResolve
    rw [h0]
    simp
  · by_cases hg : (ranyBallMoving s || rcueMissingGuard s) = true
    · have h0 : rcheckTurnState s = ⟨s, none, false⟩ := by
        simp [rcheckTurnState, hsh, hg]
      refine Or.inl ⟨h0, ?_⟩
      unfold rfullResolve
      rw [h0]
      simp
    · have h1 : rcheckTurnState s = rresolveAtRest s := by
        simp [rcheckTurnState, hsh, hg]
      have hrr : (rresolveAtRest s).reRack = rframeCompleteCond s :=
        (rresolveAtRest_spec s).2.1
      refine Or.inr ⟨h1, ?_⟩
      by_cases hfd : rframeCompleteCond s = true
      · refine Or.inl ⟨hfd, ?_⟩
        unfold rfullResolve
        rw [h1, hrr, hfd]
        simp
      · refine Or.inr ⟨by simpa using hfd, ?_⟩
        unfold rfullResolve
        rw [h1, hrr]
        simp [hfd]

/-- C5 counterexample: the rack reset (`rsetupBalls`, here invoked as
the mode-1 setup operation on a state where player 1 holds a break of
5) sets the break counter back to 0 while the active player does not
change — the break counter is not reset exclusively on active-player
switches. -/
theorem c5_break_reset_counterexample :
    rc5State.rcurrentBreak ≠ 0 ∧
    (rstep (Op.setup rzeroRand 1) rc5State).rcurrentBreak = 0 ∧
    (rstep (Op.setup rzeroRand 1) rc5State).rcurrentPlayer
      = rc5State.rcurrentPlayer := by
  exact ⟨by decide, rfl, rfl⟩

/-- C5 amended: across every state-mutating operation of the engine,
whenever the active player changes the break counter comes out 0; and
the only way a nonzero break is set back to 0 without an active-player
change is a full rack reset (a direct `rsetupBalls`, or the
frame-completion re-rack inside shot resolution). -/
theorem c5_break_reset_amended (op : Op) (s : GameState) :
    ((rstep op s).rcurrentPlayer ≠ s.rcurrentPlayer →
      (rstep op s).rcurrentBreak = 0) ∧
    (s.rcurrentBreak ≠ 0 → (rstep op s).rcurrentBreak = 0 →
      (rstep op s).rcurrentPlayer ≠ s.rcurrentPlayer ∨
        rperformsRackReset op s = true) := by
  cases op with
  | pot bid =>
    simp only [rstep]
    cases hf : s.rballs.find? (fun x => decide (x.id = bid)) with
    | none =>
      rw [rhandlePocket_eq_self s bid hf]
      exact ⟨fun h => absurd rfl h, fun h1 h2 => absurd h2 h1⟩
    | some b =>
      rw [rhandlePocket_eq_applyPot s bid b hf]
      cases hc : s.rcueBall with
      | none =>
        rw [rapplyPot_null_spec s bid b hc]
        exact ⟨fun h => absurd rfl h, fun h1 h2 => absurd h2 h1⟩
      | some c =>
        by_cases hcb : c = bid
        · obtain ⟨-, -, -, hpl, -, -, -, hbr, -⟩ :=
            rapplyPot_cue_spec s bid b (by rw [hc, hcb])
          constructor
          · intro h
            rw [hpl] at h
            exact absurd rfl h
          · intro h1 h2
            rw [hbr] at h2
            exact absurd h2 h1
        · obtain ⟨-, -, hbr, -, hpl⟩ := rapplyPot_object_spec s bid b c hc hcb
          constructor
          · intro h
            rw [hpl] at h
            exact absurd rfl h
          · intro h1 h2
            rw [hbr] at h2
            have := rpointsFor_pos b.color
            omega
  | respawnCue => exact ⟨fun h => absurd rfl h, fun h1 h2 => absurd h2 h1⟩
  | resolve rand =>
    simp only [rstep]
    rcases rfullResolve_cases rand s with ⟨hck, hst⟩ | ⟨hck, hcase⟩
    · rw [hst]
      exact ⟨fun h => absurd rfl h, fun h1 h2 => absurd h2 h1⟩
    · obtain ⟨-, hrr, hpl, hbr, -⟩ := rresolveAtRest_spec s
      rcases hcase with ⟨hfd, hst⟩ | ⟨hfd, hst⟩
      · rw [hst]
        refine ⟨fun _ => rfl, fun _ _ => Or.inr ?_⟩
        show (rcheckTurnState s).reRack = true
        rw [hck, hrr]
        exact hfd
      · rw [hst]
        by_cases hcond :
            (decide (s.rballsPottedThisTurn = 0) || s.rfoulCommitted) = true
        · constructor
          · intro _
            rw [hbr, if_pos hcond]
          · intro _ _
            refine Or.inl ?_
            rw [hpl, if_pos hcond]
            exact ropponent_ne _
        · constructor
          · intro h
            rw [hpl, if_neg hcond] at h
            exact absurd rfl h
          · intro h1 h2
            rw [hbr, if_neg hcond] at h2
            exact absurd h2 h1
  | sweep => exact ⟨fun h => absurd rfl h, fun h1 h2 => absurd h2 h1⟩
  | setup rand mode => exact ⟨fun _ => rfl, fun _ _ => Or.inr rfl⟩
  | fire => exact ⟨fun h => absurd rfl h, fun h1 h2 => absurd h2 h1⟩
  | replayRequest =>
    have h : (rplayVisualReplay s).1.rcurrentPlayer = s.rcurrentPlayer ∧
        (rplayVisualReplay s).1.rcurrentBreak = s.rcurrentBreak := by
      unfold rplayVisualReplay
      split
      · exact ⟨rfl, rfl⟩
      · split
        · exact ⟨rfl, rfl⟩
        · exact ⟨rfl, rfl⟩
    constructor
    · intro hne; exact absurd h.1 hne
    · intro h1 h2
      rw [show (rstep Op.replayRequest s).rcurrentBreak
          = (rplayVisualReplay s).1.rcurrentBreak from rfl, h.2] at h2
      exact absurd h2 h1
  | replayTick =>
    have h : (rupdatePlaybackIndex s).1.rcurrentPlayer = s.rcurrentPlayer ∧
        (rupdatePlaybackIndex s).1.rcurrentBreak = s.rcurrentBreak := by
      unfold rupdatePlaybackIndex
      split
      · exact ⟨rfl, rfl⟩
      · exact ⟨rfl, rfl⟩
    constructor
    · intro hne; exact absurd h.1 hne
    · intro h1 h2
      rw [show (rstep Op.replayTick s).rcurrentBreak
          = (rupdatePlaybackIndex s).1.rcurrentBreak from rfl, h.2] at h2
      exact absurd h2 h1
  | record => exact ⟨fun h => absurd rfl h, fun h1 h2 => absurd h2 h1⟩

/-- C5 witness: a concrete MISS resolution switches the active player,
and by the amended claim the break counter comes out 0. -/
theorem c5_break_reset_amended_witness :
    (rstep (Op.resolve rzeroRand) rcShotState).rcurrentPlayer
      ≠ rcShotState.rcurrentPlayer ∧
    (rstep (Op.resolve rzeroRand) rcShotState).rcurrentBreak = 0 := by
  have hmv : ranyBallMoving rcShotState = false := by
    simp [ranyBallMoving, rcShotState, rcueAtRest, rredAtRest,
      ryellowAtRest, risBallMoving_zero_vel]
  have hres := rcheckTurnState_resolves rcShotState rfl hmv rfl
  have hfd : rframeCompleteCond rcShotState = false := by decide
  have hfull : rfullResolve rzeroRand rcShotState
      = (rresolveAtRest rcShotState).state := by
    unfold rfullResolve
    rw [hres, (rresolveAtRest_spec rcShotState).2.1]
    simp [hfd]
  have hpl := (rresolveAtRest_spec rcShotState).2.2.1
  have hchange : (rstep (Op.resolve rzeroRand) rcShotState).rcurrentPlayer
      ≠ rcShotState.rcurrentPlayer := by
    show (rfullResolve rzeroRand rcShotState).rcurrentPlayer ≠ _
    rw [hfull, hpl, if_pos (by decide)]
    exact ropponent_ne _
  exact ⟨hchange,
    (c5_break_reset_amended (Op.resolve rzeroRand) rcShotState).1 hchange⟩

theorem rsetupBalls_spec (rand : Nat → ℚ × ℚ) (mode : Nat) (s : GameState) :
    (rsetupBalls rand mode s).rballs
      = Ball.mk s.nextId Color.white rkitchenPos (0, 0)
          :: rmkBalls (s.nextId + 1) (rlayoutFor rand mode) ∧
    (rsetupBalls rand mode s).score1 = 0 ∧
    (rsetupBalls rand mode s).score2 = 0 ∧
    (rsetupBalls rand mode s).rcurrentPlayer = 1 ∧
    (rsetupBalls rand mode s).rframesCompleted = s.rframesCompleted ∧
    (rsetupBalls rand mode s).rcurrentMode = s.rcurrentMode ∧
    (rsetupBalls rand mode s).rcueBall = some s.nextId :=
  ⟨rfl, rfl, rfl, rfl, rfl, rfl, rfl⟩

/-- C6: at shot resolution, when exactly one ball remains and it is the
ball the cue-ball reference points at, the frame completes:
frames-completed goes up by one and survives the deferred re-rack, and
the re-rack (run with the current layout mode) resets both scores to 0,
rebuilds the registry from the current layout and hands the table to
player 1. -/
theorem c6_frame_completion (rand : Nat → ℚ × ℚ) (s : GameState) (b : Ball)
    (hsh : s.risShooting = true)
    (hballs : s.rballs = [b])
    (hcue : s.rcueBall = some b.id)
    (hrest : risBallMoving b = false) :
    (rfullResolve rand s).rframesCompleted = s.rframesCompleted + 1 ∧
    (rfullResolve rand s).score1 = 0 ∧
    (rfullResolve rand s).score2 = 0 ∧
    (rfullResolve rand s).rballs
      = Ball.mk s.nextId Color.white rkitchenPos (0, 0)
          :: rmkBalls (s.nextId + 1) (rlayoutFor rand s.rcurrentMode) ∧
    (rfullResolve rand s).rcurrentMode = s.rcurrentMode ∧
    (rfullResolve rand s).rcurrentPlayer = 1 := by
  have hmv : ranyBallMoving s = false := by
    unfold ranyBallMoving
    rw [hballs]
    simp [hrest]
  have hguard : rcueMissingGuard s = false := by simp [rcueMissingGuard, hcue]
  have hres := rcheckTurnState_resolves s hsh hmv hguard
  have hfd : rframeCompleteCond s = true := by
    unfold rframeCompleteCond
    rw [hballs, hcue]
    simp
  obtain ⟨-, hrr, -, -, -, -, -, hfr, hmd, hni, -⟩ := rresolveAtRest_spec s
  have hfull : rfullResolve rand s
      = rsetupBalls rand s.rcurrentMode (rresolveAtRest s).state := by
    unfold rfullResolve
    rw [hres, hrr, hfd, hmd]
    simp
  rw [hfull]
  obtain ⟨hb, h1, h2, hp, hf2, hm2, -⟩ :=
    rsetupBalls_spec rand s.rcurrentMode (rresolveAtRest s).state
  refine ⟨?_, h1, h2, ?_, ?_, hp⟩
  · rw [hf2, hfr, if_pos hfd]
  · rw [hb, hni]
  · rw [hm2, hmd]

/-- C6 witness: on the concrete end-of-frame state (only the cue ball
left, scores 30:20, three frames completed) resolution bumps
frames-completed to 4 and the re-rack zeroes both scores and restores
player 1. -/
theorem c6_frame_completion_witness :
    (rfullResolve rzeroRand rc6State).rframesCompleted = 4 ∧
    (rfullResolve rzeroRand rc6State).score1 = 0 ∧
    (rfullResolve rzeroRand rc6State).score2 = 0 ∧
    (rfullResolve rzeroRand rc6State).rcurrentPlayer = 1 := by
  obtain ⟨h1, h2, h3, -, -, h6⟩ :=
    c6_frame_completion rzeroRand rc6State rcueAtRest rfl rfl rfl
      (risBallMoving_zero_vel rcueAtRest rfl)
  exact ⟨h1, h2, h3, h6⟩

/-- C7: after a TRIANGLE rack reset the registry holds exactly one
white ball positioned at the fixed kitchen spot (and the cue-ball
reference points at it), exactly 15 reds arranged as the 5-row
triangular cluster, and exactly one each of the six colored balls —
22 balls in total. -/
theorem c7_triangle_rack (rand : Nat → ℚ × ℚ) (s : GameState) :
    ((rsetupBalls rand 1 s).rballs.filter
        (fun b => decide (b.color = Color.white))).map Ball.pos = [rkitchenPos] ∧
    (rsetupBalls rand 1 s).rballs.countP
        (fun b => decide (b.color = Color.red)) = 15 ∧
    (rsetupBalls rand 1 s).rballs.countP
        (fun b => decide (b.color = Color.yellow)) = 1 ∧
    (rsetupBalls rand 1 s).rballs.countP
        (fun b => decide (b.color = Color.green)) = 1 ∧
    (rsetupBalls rand 1 s).rballs.countP
        (fun b => decide (b.color = Color.brown)) = 1 ∧
    (rsetupBalls rand 1 s).rballs.countP
        (fun b => decide (b.color = Color.blue)) = 1 ∧
    (rsetupBalls rand 1 s).rballs.countP
        (fun b => decide (b.color = Color.pink)) = 1 ∧
    (rsetupBalls rand 1 s).rballs.countP
        (fun b => decide (b.color = Color.black)) = 1 ∧
    (rsetupBalls rand 1 s).rballs.length = 22 ∧
    (rsetupBalls rand 1 s).rcueBall = some s.nextId ∧
    ((rsetupBalls rand 1 s).rballs.filter
        (fun b => decide (b.color = Color.red))).map Ball.pos
      = [(600, 200), (621, 190), (621, 210), (642, 180), (642, 200), (642, 220),
         (663, 170), (663, 190), (663, 210), (663, 230),
         (684, 160), (684, 180), (684, 200), (684, 220), (684, 240)] := by
  have hb : (rsetupBalls rand 1 s).rballs
      = Ball.mk s.nextId Color.white rkitchenPos (0, 0)
          :: rmkBalls (s.nextId + 1) rtriangleLayout :=
    (rsetupBalls_spec rand 1 s).1
  have hfred : rtriangleLayout.filter (fun e => decide (e.1 = Color.red))
      = rtriangleRedLayout := rfl
  have hcr : rtriangleLayout.countP (fun e => decide (e.1 = Color.red)) = 15 := by
    decide
  have hcy : rtriangleLayout.countP (fun e => decide (e.1 = Color.yellow)) = 1 := by
    decide
  have hcg : rtriangleLayout.countP (fun e => decide (e.1 = Color.green)) = 1 := by
    decide
  have hcbr : rtriangleLayout.countP (fun e => decide (e.1 = Color.brown)) = 1 := by
    decide
  have hcbl : rtriangleLayout.countP (fun e => decide (e.1 = Color.blue)) = 1 := by
    decide
  have hcp : rtriangleLayout.countP (fun e => decide (e.1 = Color.pink)) = 1 := by
    decide
  have hcbk : rtriangleLayout.countP (fun e => decide (e.1 = Color.black)) = 1 := by
    decide
  have hlen : rtriangleLayout.length = 21 := by decide
  have hredpos : rtriangleRedLayout.map Prod.snd
      = [((600 : ℚ), (200 : ℚ)), (621, 190), (621, 210), (642, 180), (642, 200),
         (642, 220), (663, 170), (663, 190), (663, 210), (663, 230),
         (684, 160), (684, 180), (684, 200), (684, 220), (684, 240)] := by
    norm_num [rtriangleRedLayout, List.range_succ, List.flatMap_append,
      List.flatMap_cons, List.flatMap_nil, Prod.ext_iff]
  refine ⟨?_, ?_, ?_, ?_, ?_, ?_, ?_, ?_, ?_,
    (rsetupBalls_spec rand 1 s).2.2.2.2.2.2, ?_⟩
  · rw [hb]
    rw [List.filter_cons_of_pos (by simp)]
    rw [List.map_cons, rmkBalls_filterColor_map_pos Color.white rtriangleLayout
      (s.nextId + 1)]
    rw [show rtriangleLayout.filter (fun e => decide (e.1 = Color.white))
        = [] from rfl]
    rfl
  · rw [hb, List.countP_cons, rmkBalls_countP_color, hcr]
    simp
  · rw [hb, List.countP_cons, rmkBalls_countP_color, hcy]
    simp
  · rw [hb, List.countP_cons, rmkBalls_countP_color, hcg]
    simp
  · rw [hb, List.countP_cons, rmkBalls_countP_color, hcbr]
    simp
  · rw [hb, List.countP_cons, rmkBalls_countP_color, hcbl]
    simp
  · rw [hb, List.countP_cons, rmkBalls_countP_color, hcp]
    simp
  · rw [hb, List.countP_cons, rmkBalls_countP_color, hcbk]
    simp
  · rw [hb, List.length_cons, rmkBalls_length, hlen]
  · rw [hb]
    rw [List.filter_cons_of_neg (by simp)]
    rw [rmkBalls_filterColor_map_pos Color.red rtriangleLayout (s.nextId + 1),
      hfred, hredpos]

/-- C9 counterexample: with a recording present and a shot in flight,
the replay request is rejected as a no-op, but silently — the busy
branch emits no user-visible feedback, contradicting the claim that
every rejection comes with feedback. -/
theorem c9_replay_busy_counterexample :
    rc9State.rlastShotRecording.length ≠ 0 ∧
    rc9State.risShooting = true ∧
    rplayVisualReplay rc9State = (rc9State, none) := by
  exact ⟨by decide, rfl, rfl⟩

/-- C9 amended: a replay request with no recording is rejected with
user-visible feedback and no state change; a request while a shot is
in flight or a replay is already running is rejected as a silent no-op
(no feedback); otherwise replay mode is entered at frame index 0 with
feedback.  Each render tick advances the index by exactly one frame,
and once the index passes the last recorded frame the replay exits
automatically with feedback. -/
theorem c9_replay_request_amended (s : GameState) :
    (s.rlastShotRecording.length = 0 →
      rplayVisualReplay s = (s, some Feedback.noShotToReplay)) ∧
    (s.rlastShotRecording.length ≠ 0 →
      (s.risShooting = true ∨ s.risReplaying = true) →
      rplayVisualReplay s = (s, none)) ∧
    (s.rlastShotRecording.length ≠ 0 → s.risShooting = false →
      s.risReplaying = false →
      rplayVisualReplay s
        = ({ s with risReplaying := true, rreplayFrameIndex := 0 },
           some Feedback.replayingShot)) ∧
    (s.rreplayFrameIndex < s.rlastShotRecording.length →
      rupdatePlaybackIndex s
        = ({ s with rreplayFrameIndex := s.rreplayFrameIndex + 1 }, none)) ∧
    (s.rlastShotRecording.length ≤ s.rreplayFrameIndex →
      rupdatePlaybackIndex s
        = ({ s with risReplaying := false }, some Feedback.replayFinished)) := by
  refine ⟨?_, ?_, ?_, ?_, ?_⟩
  · intro h
    unfold rplayVisualReplay
    rw [if_pos h]
  · intro h hb
    unfold rplayVisualReplay
    rw [if_neg h]
    rcases hb with hb | hb <;> simp [hb]
  · intro h h1 h2
    unfold rplayVisualReplay
    rw [if_neg h]
    simp [h1, h2]
  · intro h
    unfold rupdatePlaybackIndex
    rw [if_neg (by omega)]
  · intro h
    unfold rupdatePlaybackIndex
    rw [if_pos h]

/-- C9 witness: on the concrete busy state the request is a silent
no-op, and a tick from index 0 with one recorded frame advances the
index by one. -/
theorem c9_replay_request_amended_witness :
    rplayVisualReplay rc9State = (rc9State, none) ∧
    rupdatePlaybackIndex rc9State
      = ({ rc9State with
            rreplayFrameIndex := rc9State.rreplayFrameIndex + 1 }, none) := by
  obtain ⟨-, h2, -, h4, -⟩ := c9_replay_request_amended rc9State
  exact ⟨h2 (by decide) (Or.inl rfl), h4 (by decide)⟩

/-- C10: the per-tick out-of-bounds sweep removes offending balls from
the registry and changes nothing else — scores, break, per-shot
counters, the foul flag, the shooting flag, the active player, the
fresh-identity counter and the cue-ball reference are all untouched;
in particular, when the swept ball is the one the cue-ball reference
points at, the reference still points at the removed ball and the
missing-cue-ball rest guard does not trigger. -/
theorem c10_oob_sweep_frame (s : GameState) :
    (routOfBoundsSweep s).rballs
      = s.rballs.filter (fun b => !(routOfBounds b)) ∧
    (routOfBoundsSweep s).score1 = s.score1 ∧
    (routOfBoundsSweep s).score2 = s.score2 ∧
    (routOfBoundsSweep s).rfoulCommitted = s.rfoulCommitted ∧
    (routOfBoundsSweep s).rcurrentBreak = s.rcurrentBreak ∧
    (routOfBoundsSweep s).rballsPottedThisTurn = s.rballsPottedThisTurn ∧
    (routOfBoundsSweep s).rcurrentPlayer = s.rcurrentPlayer ∧
    (routOfBoundsSweep s).risShooting = s.risShooting ∧
    (routOfBoundsSweep s).rcueBall = s.rcueBall ∧
    (routOfBoundsSweep s).nextId = s.nextId ∧
    (∀ cid, s.rcueBall = some cid →
      (routOfBoundsSweep s).rcueBall = some cid ∧
      rcueMissingGuard (routOfBoundsSweep s) = false) ∧
    (∀ b, b ∈ s.rballs → routOfBounds b = true →
      ¬ b ∈ (routOfBoundsSweep s).rballs) := by
  refine ⟨rfl, rfl, rfl, rfl, rfl, rfl, rfl, rfl, rfl, rfl, ?_, ?_⟩
  · intro cid h
    constructor
    · show s.rcueBall = some cid
      exact h
    · show s.rcueBall.isNone = false
      rw [h]
      rfl
  · intro b hb hob
    show ¬ b ∈ s.rballs.filter (fun x => !(routOfBounds x))
    simp [List.mem_filter, hob]

/-- C10 witness: a concrete cue ball far outside the 700-radius sweep
circle is removed from the registry while the cue-ball reference keeps
pointing at it and the missing-cue-ball guard stays quiet. -/
theorem c10_oob_sweep_frame_witness :
    routOfBounds rc10Cue = true ∧
    (routOfBoundsSweep rc10State).rcueBall = some 0 ∧
    rcueMissingGuard (routOfBoundsSweep rc10State) = false ∧
    ¬ rc10Cue ∈ (routOfBoundsSweep rc10State).rballs := by
  have hob : routOfBounds rc10Cue = true := by
    simp only [routOfBounds, rc10Cue]
    norm_num
  obtain ⟨-, -, -, -, -, -, -, -, -, -, hcue, hrem⟩ := c10_oob_sweep_frame rc10State
  obtain ⟨h1, h2⟩ := hcue 0 rfl
  exact ⟨hob, h1, h2, hrem rc10Cue (by simp [rc10State]) hob⟩
